import Mathlib

/- Shallow embedding of the Pixel thermal HAL control loop
(`thermal-helper.cpp`): the PID power calculator, the power allocator,
the severity classifier with hysteresis, the per-sensor cooling-device
aggregation, the cooling-device update, virtual sensors and the snapshot
queries.

Modelling conventions:
* C++ `float`/`double` arithmetic is embedded over `ℚ`; every numeric
  scenario treated below is exactly representable, and no statement
  exercises rounding.
* `NaN` sentinels (unset thresholds, unset hysteresis, "no previous
  error") are embedded as `Option ℚ` with `none` standing for `NaN`;
  ordered comparisons against `NaN` are false, matching the IEEE
  semantics the code relies on.
* `std::numeric_limits<float>::max()` (the "infinite" power budget) is
  the exact rational `fltMax`; `std::numeric_limits<float>::lowest()` is
  `fltLowest`.
* `ThrottlingSeverity` is `Fin 7` with `0 = NONE < 1 = LIGHT <
  2 = MODERATE < 3 = SEVERE < 4 = CRITICAL < 5 = EMERGENCY <
  6 = SHUTDOWN`, the order of the C++ enumeration. -/

/- Per-severity throttle policy (`throttle_type` entries). -/
inductive ThrottleType where
  | NONE
  | LIMIT
  | PID
deriving DecidableEq

/- `SensorInfo::throttling_info` fields used by the PID path and the
power allocator (`thermal-helper.cpp`). `cdev_request` and `cdev_weight`
are the parallel per-cooling-device lists. -/
structure ThrottlingInfo where
  throttle_type : Fin 7 → ThrottleType
  k_po : Fin 7 → ℚ
  k_pu : Fin 7 → ℚ
  k_i : Fin 7 → ℚ
  k_d : Fin 7 → ℚ
  i_cutoff : Fin 7 → ℚ
  i_max : Fin 7 → ℚ
  s_power : Fin 7 → ℚ
  min_alloc_power : Fin 7 → ℚ
  max_alloc_power : Fin 7 → ℚ
  cdev_request : List String
  cdev_weight : List ℚ

/- The slice of `SensorInfo` consumed by `pidPowerCalculator`.  The PID
path reads `hot_thresholds[target]` arithmetically, so thresholds are
plain rationals here (a `NaN` threshold at a PID severity would poison
the whole budget and is not exercised by any claim). -/
structure SensorInfo where
  hot_thresholds : Fin 7 → ℚ
  throttling_info : ThrottlingInfo

/- The PID memory of `SensorStatus`: `err_integral`, and `prev_err`
with `none` standing for `NaN` (first sample). -/
structure PidState where
  err_integral : ℚ
  prev_err : Option ℚ
deriving DecidableEq

/- `std::numeric_limits<float>::max()` exactly: `(2^24 - 1) * 2^104`. -/
def fltMax : ℚ := (2 ^ 24 - 1) * 2 ^ 104

/- `std::numeric_limits<float>::lowest()` exactly. -/
def fltLowest : ℚ := -fltMax

/- `hidl_enum_range<ThrottlingSeverity>()`: severities in ascending
order, NONE first. -/
def sevList : List (Fin 7) := [0, 1, 2, 3, 4, 5, 6]

/- The `target_state` selection loop of `pidPowerCalculator`
(thermal-helper.cpp:465-475): scan severities in ascending order; each
severity whose `throttle_type` is PID overwrites `target_state`; the
scan stops at the first PID severity strictly above the current
severity. -/
def pidTargetLoop (tt : Fin 7 → ThrottleType) (sev : Fin 7) :
    List (Fin 7) → Fin 7 → Fin 7
  | [], t => t
  | s :: rest, t =>
    if tt s = ThrottleType.PID then
      if sev < s then s else pidTargetLoop tt sev rest s
    else pidTargetLoop tt sev rest t

/- The `target_state` computed by `pidPowerCalculator` for a sensor at
severity `sev`, starting from `target_state = 0`. -/
def pidTargetState (info : SensorInfo) (sev : Fin 7) : Fin 7 :=
  pidTargetLoop info.throttling_info.throttle_type sev sevList 0

/- `ThermalHelper::pidPowerCalculator` (thermal-helper.cpp:458-519).
Returns the updated PID memory and the power budget.  The early exit
(`!target_state || severity == NONE`) resets the memory and returns
`fltMax`.  Otherwise: proportional term with the asymmetric
`k_po`/`k_pu` gains, gated integral with the `i_cutoff`/`i_max`
anti-windup, derivative only when `prev_err` is not `NaN`, then the
budget is clamped to `[min_alloc_power, max_alloc_power]`. -/
def pidPowerCalculator (info : SensorInfo) (sev : Fin 7) (value : ℚ)
    (st : PidState) (dt : ℚ) : PidState × ℚ :=
  let target := pidTargetState info sev
  if target = 0 ∨ sev = 0 then
    (⟨0, none⟩, fltMax)
  else
    let ti := info.throttling_info
    let err := info.hot_thresholds target - value
    let p := err * (if err < 0 then ti.k_po target else ti.k_pu target)
    let i0 := st.err_integral * ti.k_i target
    let integ :=
      if err < ti.i_cutoff target then
        if |i0 + err * ti.k_i target| < ti.i_max target then
          st.err_integral + err
        else st.err_integral
      else st.err_integral
    let i1 :=
      if err < ti.i_cutoff target then
        if |i0 + err * ti.k_i target| < ti.i_max target then
          i0 + err * ti.k_i target
        else i0
      else i0
    let d :=
      match st.prev_err with
      | none => 0
      | some pe => ti.k_d target * (err - pe) / dt
    let pb := ti.s_power target + p + i1 + d
    let pb := if pb < ti.min_alloc_power target then ti.min_alloc_power target else pb
    let pb := if pb > ti.max_alloc_power target then ti.max_alloc_power target else pb
    (⟨integ, some err⟩, pb)

/- The inner state-selection loop of `requestCdevByPower`
(thermal-helper.cpp:543-547): `for (j = 0; j < power2state.size() - 1;
++j) if (budget > power2state[j]) break;` — the first index whose table
entry is strictly below the budget, else the last index. -/
def power2stateIdx (b : ℚ) : List ℚ → ℕ
  | [] => 0
  | [_] => 0
  | x :: y :: rest => if b > x then 0 else power2stateIdx b (y :: rest) + 1

/- The allocation loop of `requestCdevByPower`
(thermal-helper.cpp:536-554) over the zipped
`cdev_request`/`cdev_weight` lists: empty names are skipped, otherwise
the entry of `pid_request_map` for that name is set to the state index
selected for the weighted share of the budget. -/
def allocLoop (p2s : String → List ℚ) (budget total : ℚ) :
    List (String × ℚ) → (String → ℤ) → (String → ℤ)
  | [], m => m
  | (name, w) :: rest, m =>
    if name = "" then allocLoop p2s budget total rest m
    else
      allocLoop p2s budget total rest
        (fun k =>
          if k = name then
            (power2stateIdx (budget * (w / total)) (p2s name) : ℤ)
          else m k)

/- `ThermalHelper::requestCdevByPower` (thermal-helper.cpp:521-556).
`p2s` maps a cooling-device name to its `power2state` table.  If the
total `cdev_weight` is zero the call fails (`false`) and the
`pid_request_map` is returned untouched. -/
def requestCdevByPower (p2s : String → List ℚ) (ti : ThrottlingInfo)
    (m : String → ℤ) (budget : ℚ) : Bool × (String → ℤ) :=
  let pairs := ti.cdev_request.zip ti.cdev_weight
  let total := (pairs.map Prod.snd).sum
  if total = 0 then (false, m)
  else (true, allocLoop p2s budget total pairs m)

/- One input to `pidPowerCalculator` inside the watcher callback: the
sensor's current severity, the temperature reading, and the elapsed
milliseconds. -/
structure PidSample where
  sev : Fin 7
  value : ℚ
  dt : ℚ

/- Iterated PID sampling: thread the `SensorStatus` PID memory through a
sequence of `pidPowerCalculator` calls. -/
def runPidSamples (info : SensorInfo) : List PidSample → PidState → PidState
  | [], st => st
  | s :: rest, st =>
    runPidSamples info rest (pidPowerCalculator info s.sev s.value st s.dt).1

/- A per-severity threshold / hysteresis array; `none` is `NaN`. -/
abbrev ThrottlingArray : Type := Fin 7 → Option ℚ

/- `!isnan(hot_thresholds[i]) && hot_thresholds[i] <= value`
(thermal-helper.cpp:610). -/
def hotRawCond (thr : ThrottlingArray) (v : ℚ) (i : Fin 7) : Bool :=
  match thr i with
  | none => false
  | some t => decide (t ≤ v)

/- `!isnan(hot_thresholds[i]) && (hot_thresholds[i] - hot_hysteresis[i])
< value` (thermal-helper.cpp:614); a `NaN` hysteresis makes the
comparison false. -/
def hotHystCond (thr hyst : ThrottlingArray) (v : ℚ) (i : Fin 7) : Bool :=
  match thr i, hyst i with
  | some t, some h => decide (t - h < v)
  | _, _ => false

/- `!isnan(cold_thresholds[i]) && cold_thresholds[i] >= value`
(thermal-helper.cpp:618). -/
def coldRawCond (thr : ThrottlingArray) (v : ℚ) (i : Fin 7) : Bool :=
  match thr i with
  | none => false
  | some t => decide (v ≤ t)

/- `!isnan(cold_thresholds[i]) && (cold_thresholds[i] +
cold_hysteresis[i]) > value` (thermal-helper.cpp:622). -/
def coldHystCond (thr hyst : ThrottlingArray) (v : ℚ) (i : Fin 7) : Bool :=
  match thr i, hyst i with
  | some t, some h => decide (v < t + h)
  | _, _ => false

/- The classifier scans severities from SHUTDOWN down to LIGHT
(thermal-helper.cpp:608-609). -/
def sevDescend : List (Fin 7) := [6, 5, 4, 3, 2, 1]

/- Each of the four results of the scan is frozen at the first (highest)
severity whose condition holds, NONE if none does. -/
def firstSevMatch (p : Fin 7 → Bool) : Fin 7 :=
  (sevDescend.find? p).getD 0

/- `ThermalHelper::getSeverityFromThresholds`
(thermal-helper.cpp:596-635): compute the raw and hysteresis severities
for hot and cold; if the raw severity dropped below the previous one,
return the hysteresis severity instead. -/
def getSeverityFromThresholds (hot_thr cold_thr hot_hyst cold_hyst : ThrottlingArray)
    (prev_hot prev_cold : Fin 7) (v : ℚ) : Fin 7 × Fin 7 :=
  let ret_hot := firstSevMatch (hotRawCond hot_thr v)
  let ret_hot_h := firstSevMatch (hotHystCond hot_thr hot_hyst v)
  let ret_cold := firstSevMatch (coldRawCond cold_thr v)
  let ret_cold_h := firstSevMatch (coldHystCond cold_thr cold_hyst v)
  (if ret_hot < prev_hot then ret_hot_h else ret_hot,
   if ret_cold < prev_cold then ret_cold_h else ret_cold)

/- The per-device slice of the aggregation step of
`thermalWatcherCallbackFunc` (thermal-helper.cpp:1002-1024) and of
`updateCoolingDevices` (thermal-helper.cpp:579-594), for one cooling
device.  One record per sensor holding an entry for the device in
`cdev_status_map_`: the `pid_request_map` / `hard_limit_request_map`
entry for the device together with the map-nonemptiness flags the code
tests, the entry stored in `cdev_status_map_` from the previous
iteration, and whether the sensor was evaluated this iteration. -/
structure SensorAgg where
  pid_nonempty : Bool
  pid_entry : ℤ
  limit_nonempty : Bool
  limit_entry : ℤ
  stored : ℤ
  processed : Bool

/- `fmax(pid_max, limit_max)` with `pid_max`/`limit_max` defaulting to
0 when the respective request map is empty
(thermal-helper.cpp:1005-1014). -/
def requestState (s : SensorAgg) : ℤ :=
  max (if s.pid_nonempty then s.pid_entry else 0)
      (if s.limit_nonempty then s.limit_entry else 0)

/- The aggregation block runs only when at least one of the sensor's
request maps is non-empty (thermal-helper.cpp:1002). -/
def activeAgg (s : SensorAgg) : Bool := s.pid_nonempty || s.limit_nonempty

/- The `cdev_status_map_` entry for this sensor after the iteration:
updated to the freshly aggregated request when the sensor was evaluated,
kept otherwise (thermal-helper.cpp:1019-1021). -/
def storedAfter (s : SensorAgg) : ℤ :=
  if s.processed && activeAgg s then requestState s else s.stored

/- The device is appended to `cooling_devices_to_update` exactly when
some evaluated sensor's stored entry differs from its new request
(thermal-helper.cpp:1019-1022). -/
def deviceNeedsUpdate (sensors : List SensorAgg) : Bool :=
  sensors.any fun s => s.processed && activeAgg s && decide (s.stored ≠ requestState s)

/- The `max_state` computation of `updateCoolingDevices`
(thermal-helper.cpp:580-589): starts at 0, strict `>` comparison. -/
def writtenState (vals : List ℤ) : ℤ :=
  vals.foldl (fun m v => if v > m then v else m) 0

/- The sysfs write of one iteration for this device: `some state` when
the device was collected into `cooling_devices_to_update` (the state
written by `updateCoolingDevices`), `none` when no write occurs
(thermal-helper.cpp:1034-1036). -/
def iterationWrite (sensors : List SensorAgg) : Option ℤ :=
  if deviceNeedsUpdate sensors then
    some (writtenState (sensors.map storedAfter))
  else none

/- Virtual-sensor combination formulas (`FormulaOption`). -/
inductive FormulaOption where
  | COUNT_THRESHOLD
  | WEIGHTED_AVG
  | MAXIMUM
  | MINIMUM
deriving DecidableEq

/- One `linked_sensors[i]` entry with its parallel coefficient; a `NaN`
coefficient is `none`. -/
structure LinkedEntry where
  name : String
  coefficient : Option ℚ

/- An entry of `checkVirtualSensor`'s loop is skipped when the linked
name is the literal "NAN" or empty, the read of the linked sensor
fails, or the coefficient is `NaN` (thermal-helper.cpp:855-871). -/
def entrySkipped (readF : String → Option ℚ) (e : LinkedEntry) : Bool :=
  e.name == "NAN" || e.name == "" || (readF e.name).isNone || e.coefficient.isNone

/- The accumulation loop of `ThermalHelper::checkVirtualSensor`
(thermal-helper.cpp:847-902).  `i` is the loop index over
`linked_sensors`; `m` is the accumulator `mTemp`, which starts at 0 and,
for MAXIMUM / MINIMUM, is re-seeded with `lowest()` / `max()` only when
the switch is reached with `i == 0`. -/
def vsLoop (f : FormulaOption) (readF : String → Option ℚ) :
    List LinkedEntry → ℕ → ℚ → ℚ
  | [], _, m => m
  | e :: rest, i, m =>
    if entrySkipped readF e then vsLoop f readF rest (i + 1) m
    else
      let r := (readF e.name).getD 0
      let c := e.coefficient.getD 0
      let m' :=
        match f with
        | FormulaOption.COUNT_THRESHOLD =>
          if (c < 0 ∧ r < -c) ∨ (0 ≤ c ∧ c ≤ r) then m + 1 else m
        | FormulaOption.WEIGHTED_AVG => m + r * c
        | FormulaOption.MAXIMUM =>
          let m0 := if i = 0 then fltLowest else m
          if r * c > m0 then r * c else m0
        | FormulaOption.MINIMUM =>
          let m0 := if i = 0 then fltMax else m
          if r * c < m0 then r * c else m0
      vsLoop f readF rest (i + 1) m'

/- `ThermalHelper::checkVirtualSensor` for a sensor with the given
formula, linked entries and physical-sensor read function: `mTemp`
starts at 0 and the loop index at 0. -/
def checkVirtualSensor (f : FormulaOption) (readF : String → Option ℚ)
    (linked : List LinkedEntry) : ℚ :=
  vsLoop f readF linked 0 0

/- The products `reading_i * coefficient_i` of the entries that are not
skipped, in loop order. -/
def contribProducts (readF : String → Option ℚ) : List LinkedEntry → List ℚ
  | [] => []
  | e :: rest =>
    if entrySkipped readF e then contribProducts readF rest
    else ((readF e.name).getD 0 * e.coefficient.getD 0) :: contribProducts readF rest

/- One configured sensor as seen by `fillCurrentTemperatures`: its
semantic type and the result of `readTemperature` (`none` when the read
fails). -/
structure SensorSnap where
  ty : ℕ
  reading : Option ℚ

/- `ThermalHelper::fillCurrentTemperatures` (thermal-helper.cpp:776-794)
over the configured sensor list: filter-mismatching sensors are skipped;
the first failing read returns `false` immediately without assigning the
output (`none` here); otherwise the collected readings are assigned
(`some` list). -/
def fillCurrentTemperatures (filterType : Bool) (t : ℕ) :
    List SensorSnap → Option (List ℚ)
  | [] => some []
  | s :: rest =>
    if filterType && decide (s.ty ≠ t) then fillCurrentTemperatures filterType t rest
    else
      match s.reading with
      | none => none
      | some v => (fillCurrentTemperatures filterType t rest).map (fun l => v :: l)

/- The Boolean actually returned to the caller: `false` on the early
exit, else `ret.size() > 0`. -/
def fillCurrentTemperaturesRet (filterType : Bool) (t : ℕ)
    (ss : List SensorSnap) : Bool :=
  match fillCurrentTemperatures filterType t ss with
  | none => false
  | some l => !l.isEmpty

/- The same query stated from the amended description: fail exactly when
some filter-matching sensor is unreadable, otherwise return every
matching sensor's reading. -/
def fillCurrentTemperaturesSpec (filterType : Bool) (t : ℕ)
    (ss : List SensorSnap) : Option (List ℚ) :=
  if (ss.filter fun s => !(filterType && decide (s.ty ≠ t))).any
      (fun s => s.reading.isNone) then none
  else some ((ss.filter fun s => !(filterType && decide (s.ty ≠ t))).filterMap
    fun s => s.reading)

/- One sensor's configuration as consumed by the `ThermalHelper`
constructor (thermal-helper.cpp:274-302): monitor flag, the
`cdev_request` names and the `limit_info` cooling-device names. -/
structure SensorCfg where
  is_monitor : Bool
  cdev_request : List String
  limit_names : List String

/- The key set of `cdev_status_map_` built by the constructor: every
cooling-device name referenced by any sensor's `cdev_request` or
`limit_info`. -/
def referencedCdevs (cfgs : List SensorCfg) : List String :=
  cfgs.foldr (fun s acc => s.cdev_request ++ s.limit_names ++ acc) []

/- The `pid_request_map` the constructor builds for a sensor: one zero
entry per `cdev_request` name (thermal-helper.cpp:290). -/
def pidMap (s : SensorCfg) : List (String × ℤ) :=
  s.cdev_request.map fun n => (n, 0)

/- The `hard_limit_request_map` the constructor builds: one zero entry
per `limit_info` name (thermal-helper.cpp:299-300). -/
def limitMap (s : SensorCfg) : List (String × ℤ) :=
  s.limit_names.map fun n => (n, 0)

/- All `.at()` lookups of the aggregation step succeed: for every
monitored sensor with a non-empty request map and every key of
`cdev_status_map_`, the lookup in that sensor's own map is defined
(thermal-helper.cpp:1002-1012). -/
def aggLookupsOk (cfgs : List SensorCfg) : Prop :=
  ∀ s ∈ cfgs, s.is_monitor = true →
    (pidMap s ≠ [] → ∀ c ∈ referencedCdevs cfgs, (pidMap s).lookup c ≠ none) ∧
    (limitMap s ≠ [] → ∀ c ∈ referencedCdevs cfgs, (limitMap s).lookup c ≠ none)

/- Every monitored sensor with a non-empty `cdev_request` (resp.
`limit_info`) references every cooling device referenced by any
sensor. -/
def fullCoverage (cfgs : List SensorCfg) : Prop :=
  ∀ s ∈ cfgs, s.is_monitor = true →
    (s.cdev_request ≠ [] → ∀ c ∈ referencedCdevs cfgs, c ∈ s.cdev_request) ∧
    (s.limit_names ≠ [] → ∀ c ∈ referencedCdevs cfgs, c ∈ s.limit_names)

/- Concrete configuration for claim C1: PID enabled at MODERATE with
`s_power = 1000`, `k_po = k_pu = 20`, `k_i = k_d = 0`,
`hot_threshold[MODERATE] = 55`, full weight on cooling device "fan". -/
def c1Info : SensorInfo :=
  { hot_thresholds := fun i => if i = 2 then 55 else 0
    throttling_info :=
    { throttle_type := fun i => if i = 2 then ThrottleType.PID else ThrottleType.NONE
      k_po := fun i => if i = 2 then 20 else 0
      k_pu := fun i => if i = 2 then 20 else 0
      k_i := fun _ => 0
      k_d := fun _ => 0
      i_cutoff := fun _ => 0
      i_max := fun _ => 100
      s_power := fun i => if i = 2 then 1000 else 0
      min_alloc_power := fun _ => 0
      max_alloc_power := fun _ => 1000000
      cdev_request := ["fan"]
      cdev_weight := [1] } }

/- The same configuration except `k_po = 0`: it still satisfies every
constraint claim C1 states (`k_pu = 20`, `k_i = k_d = 0`,
`s_power = 1000`, threshold 55), since the claim leaves `k_po`
unconstrained. -/
def c1xInfo : SensorInfo :=
  { hot_thresholds := c1Info.hot_thresholds
    throttling_info := { c1Info.throttling_info with k_po := fun _ => 0 } }

/- The `power2state` tables for claim C1: device "fan" has
`[1500, 1000, 500, 0]`. -/
def c1P2s : String → List ℚ := fun n => if n = "fan" then [1500, 1000, 500, 0] else []

/-- Claim C1, counterexample: the configuration `c1xInfo` satisfies every
constraint the claim states (`s_power = 1000`, `k_pu = 20`,
`k_i = k_d = 0`, `hot_threshold[MODERATE] = 55`, PID at MODERATE), yet at
severity MODERATE and reading 60 the budget is 1000, not 900: the reading
is above the threshold, so `err = -5 < 0` and the code multiplies by
`k_po` (here 0), not by the claimed `k_pu`. -/
theorem c1_counterexample :
    c1xInfo.throttling_info.s_power 2 = 1000 ∧
    c1xInfo.throttling_info.k_pu 2 = 20 ∧
    c1xInfo.throttling_info.k_i 2 = 0 ∧
    c1xInfo.throttling_info.k_d 2 = 0 ∧
    c1xInfo.hot_thresholds 2 = 55 ∧
    c1xInfo.throttling_info.throttle_type 2 = ThrottleType.PID ∧
    (pidPowerCalculator c1xInfo 2 60 ⟨0, none⟩ 100).2 = 1000 ∧
    (pidPowerCalculator c1xInfo 2 60 ⟨0, none⟩ 100).2 ≠ 900 := by
  refine ⟨?_, ?_, ?_, ?_, ?_, ?_, ?_, ?_⟩ <;>
    norm_num +decide [pidPowerCalculator, pidTargetState, pidTargetLoop, sevList,
      c1xInfo, c1Info]

/-- Claim C1, amended: with `k_po = 20` as well (the gain the code
actually applies, since `err = 55 - 60 = -5 < 0`), the PID budget at
severity MODERATE and reading 60 is exactly `1000 + (55 - 60) * 20 =
900`, and `requestCdevByPower` with full weight on one cooling device
whose `power2state` table is `[1500, 1000, 500, 0]` records state 2, the
first index whose table entry is strictly below 900. -/
theorem c1_amended :
    c1Info.throttling_info.k_po 2 = 20 ∧
    (pidPowerCalculator c1Info 2 60 ⟨0, none⟩ 100).2 = 900 ∧
    (requestCdevByPower c1P2s c1Info.throttling_info (fun _ => 0) 900).1 = true ∧
    (requestCdevByPower c1P2s c1Info.throttling_info (fun _ => 0) 900).2 "fan" = 2 ∧
    power2stateIdx 900 [1500, 1000, 500, 0] = 2 := by
  refine ⟨?_, ?_, ?_, ?_, ?_⟩ <;>
    norm_num +decide [pidPowerCalculator, pidTargetState, pidTargetLoop, sevList,
      requestCdevByPower, allocLoop, power2stateIdx, c1P2s, c1Info]

/- Configuration for the C2 counterexample: PID only at LIGHT, with
`hot_threshold[LIGHT] = 45`, `s_power = 1000`, `k_po = k_pu = 20`. -/
def c2xInfo : SensorInfo :=
  { hot_thresholds := fun i => if i = 1 then 45 else 0
    throttling_info :=
    { throttle_type := fun i => if i = 1 then ThrottleType.PID else ThrottleType.NONE
      k_po := fun i => if i = 1 then 20 else 0
      k_pu := fun i => if i = 1 then 20 else 0
      k_i := fun _ => 0
      k_d := fun _ => 0
      i_cutoff := fun _ => 0
      i_max := fun _ => 100
      s_power := fun i => if i = 1 then 1000 else 0
      min_alloc_power := fun _ => 0
      max_alloc_power := fun _ => 1000000
      cdev_request := ["fan"]
      cdev_weight := [1] } }

/-- Claim C2, counterexample: in `c2xInfo` the only PID severity is
LIGHT (1), and the sensor's current severity MODERATE (2) is strictly
above NONE and strictly above it; yet `pidPowerCalculator` selects
`target_state = 1` (the loop's unconditional `target_state = state`
assignment keeps the highest PID severity), computes the finite budget
`1000 + (45 - 60) * 20 = 700`, accumulates `err_integral = -15` and sets
`prev_err = -15` — it does not leave `target_state = 0`, does not reset,
and does not return the infinite budget. -/
theorem c2_counterexample :
    c2xInfo.throttling_info.throttle_type 1 = ThrottleType.PID ∧
    (∀ j : Fin 7, 1 < j → c2xInfo.throttling_info.throttle_type j ≠ ThrottleType.PID) ∧
    ((1 : Fin 7) < 2 ∧ (0 : Fin 7) < 2) ∧
    pidTargetState c2xInfo 2 = 1 ∧
    (pidPowerCalculator c2xInfo 2 60 ⟨0, none⟩ 100).2 = 700 ∧
    (pidPowerCalculator c2xInfo 2 60 ⟨0, none⟩ 100).2 ≠ fltMax ∧
    (pidPowerCalculator c2xInfo 2 60 ⟨0, none⟩ 100).1.err_integral = -15 ∧
    (pidPowerCalculator c2xInfo 2 60 ⟨0, none⟩ 100).1.prev_err ≠ none := by
  refine ⟨?_, ?_, ?_, ?_, ?_, ?_, ?_, ?_⟩ <;>
    norm_num +decide [pidPowerCalculator, pidTargetState, pidTargetLoop, sevList,
      fltMax, c2xInfo]

/- If the remaining severity list avoids NONE, the target-selection
loop cannot end at 0 once the accumulator is nonzero or some remaining
severity has `throttle_type = PID`: every assignment overwrites the
accumulator with a nonzero severity. -/
theorem pidTargetLoop_ne_zero (tt : Fin 7 → ThrottleType) (sev : Fin 7) :
    ∀ l : List (Fin 7), (0 : Fin 7) ∉ l →
      ∀ t : Fin 7, (t ≠ 0 ∨ ∃ s ∈ l, tt s = ThrottleType.PID) →
        pidTargetLoop tt sev l t ≠ 0 := by
  intro l
  induction l with
  | nil =>
    intro _ t ht
    rcases ht with h | ⟨s, hs, _⟩
    · simpa [pidTargetLoop] using h
    · cases hs
  | cons s rest ih =>
    intro h0 t ht
    have hs0 : s ≠ 0 := fun h => h0 (h ▸ List.mem_cons_self s rest)
    have h0r : (0 : Fin 7) ∉ rest := fun h => h0 (List.mem_cons_of_mem _ h)
    simp only [pidTargetLoop]
    by_cases hp : tt s = ThrottleType.PID
    · rw [if_pos hp]
      by_cases hlt : sev < s
      · rw [if_pos hlt]
        exact hs0
      · rw [if_neg hlt]
        exact ih h0r s (Or.inl hs0)
    · rw [if_neg hp]
      rcases ht with h | ⟨x, hx, hxp⟩
      · exact ih h0r t (Or.inl h)
      · rcases List.mem_cons.mp hx with rfl | hxr
        · exact absurd hxp hp
        · exact ih h0r t (Or.inr ⟨x, hxr, hxp⟩)

/- The first step of the target scan (severity NONE) leaves the
accumulator at 0 whether or not NONE has `throttle_type = PID`, since
`severity > current` is never true at NONE. -/
theorem pidTargetState_eq_tail (info : SensorInfo) (sev : Fin 7) :
    pidTargetState info sev =
      pidTargetLoop info.throttling_info.throttle_type sev [1, 2, 3, 4, 5, 6] 0 := by
  have h0 : ¬ sev < (0 : Fin 7) := by simp
  unfold pidTargetState sevList
  rw [pidTargetLoop, if_neg h0, ite_self]

/- Outside the early exit, `pidPowerCalculator` records the current
error in `prev_err` — in particular it does not reset the memory and
its result is never the reset pair. -/
theorem pidPowerCalculator_prev_err (info : SensorInfo) (sev : Fin 7) (v : ℚ)
    (st : PidState) (dt : ℚ)
    (ht : pidTargetState info sev ≠ 0) (hs : sev ≠ 0) :
    (pidPowerCalculator info sev v st dt).1.prev_err =
      some (info.hot_thresholds (pidTargetState info sev) - v) := by
  simp only [pidPowerCalculator]
  rw [if_neg (not_or.mpr ⟨ht, hs⟩)]

/-- Claim C2, amended: for every sensor whose current severity is
strictly above NONE, `pidPowerCalculator` leaves `target_state = 0`
if and only if no severity strictly above NONE has
`throttle_type = PID`, and the call behaves as "no PID" — resetting
`err_integral` to 0 and `prev_err` to NaN and returning the infinite
budget `fltMax` — if and only if `target_state = 0`.  So the no-PID
exit happens exactly when there is no PID severity above NONE; when the
highest PID severity lies strictly between NONE and the current
severity (the case the original claim describes), the target is that
nonzero severity and the PID path runs, recording `prev_err` and not
returning the infinite-budget reset (`c2_counterexample` computes the
finite budget 700 at such a configuration). -/
theorem c2_amended (info : SensorInfo) (sev : Fin 7) (v dt : ℚ) (st : PidState)
    (hsev : sev ≠ 0) :
    (pidTargetState info sev = 0 ↔
      ∀ i : Fin 7, i ≠ 0 → info.throttling_info.throttle_type i ≠ ThrottleType.PID) ∧
    (pidPowerCalculator info sev v st dt = (⟨0, none⟩, fltMax) ↔
      pidTargetState info sev = 0) := by
  constructor
  · constructor
    · intro h0 i hi hpid
      rw [pidTargetState_eq_tail] at h0
      have hmem : i ∈ ([1, 2, 3, 4, 5, 6] : List (Fin 7)) := by
        fin_cases i
        · exact absurd rfl hi
        all_goals decide
      exact pidTargetLoop_ne_zero info.throttling_info.throttle_type sev
        [1, 2, 3, 4, 5, 6] (by decide) 0 (Or.inr ⟨i, hmem, hpid⟩) h0
    · intro hnopid
      have h1 := hnopid 1 (by decide)
      have h2 := hnopid 2 (by decide)
      have h3 := hnopid 3 (by decide)
      have h4 := hnopid 4 (by decide)
      have h5 := hnopid 5 (by decide)
      have h6 := hnopid 6 (by decide)
      have h0 : ¬ sev < (0 : Fin 7) := by simp
      simp only [pidTargetState, sevList, pidTargetLoop, if_neg h0, if_neg h1, if_neg h2,
        if_neg h3, if_neg h4, if_neg h5, if_neg h6, ite_self]
  · constructor
    · intro heq
      by_contra htne
      have hp := pidPowerCalculator_prev_err info sev v st dt htne hsev
      rw [heq] at hp
      simp at hp
    · intro h0
      simp [pidPowerCalculator, h0]

/- Configuration for the C2 witness: no PID severity at all. -/
def c2wInfo : SensorInfo :=
  { hot_thresholds := fun _ => 0
    throttling_info :=
    { throttle_type := fun _ => ThrottleType.NONE
      k_po := fun _ => 0
      k_pu := fun _ => 0
      k_i := fun _ => 0
      k_d := fun _ => 0
      i_cutoff := fun _ => 0
      i_max := fun _ => 0
      s_power := fun _ => 0
      min_alloc_power := fun _ => 0
      max_alloc_power := fun _ => 0
      cdev_request := []
      cdev_weight := [] } }

/-- Witness for the amended claim C2, at a sensor with no PID severity,
current severity MODERATE and dirty PID memory. -/
theorem c2_amended_witness :
    ((2 : Fin 7) ≠ 0) ∧
    ((pidTargetState c2wInfo 2 = 0 ↔
        ∀ i : Fin 7, i ≠ 0 → c2wInfo.throttling_info.throttle_type i ≠ ThrottleType.PID) ∧
      (pidPowerCalculator c2wInfo 2 60 ⟨3, some 1⟩ 100 = (⟨0, none⟩, fltMax) ↔
        pidTargetState c2wInfo 2 = 0)) :=
  ⟨by decide, c2_amended c2wInfo 2 60 100 ⟨3, some 1⟩ (by decide)⟩

/- A result of `firstSevMatch` is NONE or satisfies its predicate. -/
theorem firstSevMatch_spec (p : Fin 7 → Bool) :
    firstSevMatch p = 0 ∨ p (firstSevMatch p) = true := by
  unfold firstSevMatch
  cases h : sevDescend.find? p with
  | none => simp
  | some a => simp [List.find?_some h]

/- If the predicate holds at `i ≠ 0` and fails strictly above `i`, the
descending scan stops exactly at `i`. -/
theorem firstSevMatch_eq (p : Fin 7 → Bool) (i : Fin 7) (hi : i ≠ 0)
    (ht : p i = true) (hf : ∀ j, i < j → p j = false) :
    firstSevMatch p = i := by
  fin_cases i <;> simp_all +decide [firstSevMatch, sevDescend, List.find?]

/-- Claim C3, amended: with `0 < hysteresis` at a non-NaN threshold
level `i` and previous hot severity `i`, the classifier keeps hot
severity `i` for every value in the open band
`threshold - hysteresis < v < threshold` — strictly above the lower
edge, since the code compares `(threshold - hysteresis) < value`
strictly, so at `v = threshold - hysteresis` the level is already
dropped; provided no severity strictly above `i` triggers at `v` (raw or
hysteresis).  Symmetrically for cold with the band
`threshold < v < threshold + hysteresis`. -/
theorem c3_amended (hot_thr cold_thr hot_hyst cold_hyst : ThrottlingArray)
    (prev_hot prev_cold : Fin 7) (v : ℚ) (i k : Fin 7) :
    (i ≠ 0 → prev_hot = i →
      ∀ t h, hot_thr i = some t → hot_hyst i = some h → 0 < h → t - h < v → v < t →
        (∀ j, i < j →
          hotRawCond hot_thr v j = false ∧ hotHystCond hot_thr hot_hyst v j = false) →
        (getSeverityFromThresholds hot_thr cold_thr hot_hyst cold_hyst
          prev_hot prev_cold v).1 = i) ∧
    (k ≠ 0 → prev_cold = k →
      ∀ t h, cold_thr k = some t → cold_hyst k = some h → 0 < h → v < t + h → t < v →
        (∀ j, k < j →
          coldRawCond cold_thr v j = false ∧ coldHystCond cold_thr cold_hyst v j = false) →
        (getSeverityFromThresholds hot_thr cold_thr hot_hyst cold_hyst
          prev_hot prev_cold v).2 = k) := by
  constructor
  · intro hi hprev t h hthr hhys hpos hlow hup hhigher
    have hpi_raw : hotRawCond hot_thr v i = false := by
      simp [hotRawCond, hthr, not_le.mpr hup]
    have hraw_lt : firstSevMatch (hotRawCond hot_thr v) < i := by
      rcases firstSevMatch_spec (hotRawCond hot_thr v) with h0 | hsome
      · rw [h0]
        exact Fin.pos_of_ne_zero hi
      · by_contra hcon
        push_neg at hcon
        rcases eq_or_lt_of_le hcon with heq | hlt
        · rw [← heq] at hsome
          rw [hsome] at hpi_raw
          exact Bool.true_eq_false.mp hpi_raw
        · rw [(hhigher _ hlt).1] at hsome
          exact Bool.false_eq_true.mp hsome
    have hhyst_eq : firstSevMatch (hotHystCond hot_thr hot_hyst v) = i := by
      refine firstSevMatch_eq _ _ hi ?_ fun j hj => (hhigher j hj).2
      simp [hotHystCond, hthr, hhys, hlow]
    have hfst : (getSeverityFromThresholds hot_thr cold_thr hot_hyst cold_hyst
        prev_hot prev_cold v).1 =
        if firstSevMatch (hotRawCond hot_thr v) < prev_hot then
          firstSevMatch (hotHystCond hot_thr hot_hyst v)
        else firstSevMatch (hotRawCond hot_thr v) := rfl
    rw [hfst, hprev, if_pos hraw_lt, hhyst_eq]
  · intro hk hprev t h hthr hhys hpos hup hlow hhigher
    have hpk_raw : coldRawCond cold_thr v k = false := by
      simp [coldRawCond, hthr, not_le.mpr hlow]
    have hraw_lt : firstSevMatch (coldRawCond cold_thr v) < k := by
      rcases firstSevMatch_spec (coldRawCond cold_thr v) with h0 | hsome
      · rw [h0]
        exact Fin.pos_of_ne_zero hk
      · by_contra hcon
        push_neg at hcon
        rcases eq_or_lt_of_le hcon with heq | hlt
        · rw [← heq] at hsome
          rw [hsome] at hpk_raw
          exact Bool.true_eq_false.mp hpk_raw
        · rw [(hhigher _ hlt).1] at hsome
          exact Bool.false_eq_true.mp hsome
    have hhyst_eq : firstSevMatch (coldHystCond cold_thr cold_hyst v) = k := by
      refine firstSevMatch_eq _ _ hk ?_ fun j hj => (hhigher j hj).2
      simp [coldHystCond, hthr, hhys, hup]
    have hsnd : (getSeverityFromThresholds hot_thr cold_thr hot_hyst cold_hyst
        prev_hot prev_cold v).2 =
        if firstSevMatch (coldRawCond cold_thr v) < prev_cold then
          firstSevMatch (coldHystCond cold_thr cold_hyst v)
        else firstSevMatch (coldRawCond cold_thr v) := rfl
    rw [hsnd, hprev, if_pos hraw_lt, hhyst_eq]

/- Threshold / hysteresis arrays for the C3 counterexample:
`hot_thresholds = [_, 45, 55, NaN...]`, `hot_hysteresis = [_, 3, 3,
NaN...]`. -/
def c3xHot : ThrottlingArray :=
  fun j => if j = 2 then some 55 else if j = 1 then some 45 else none

/- Hysteresis array for the C3 counterexample. -/
def c3xHys : ThrottlingArray :=
  fun j => if j = 2 then some 3 else if j = 1 then some 3 else none

/- All-NaN array (cold side unused in the C3 counterexample). -/
def c3xNone : ThrottlingArray := fun _ => none

/-- Claim C3, counterexample: at level `i = MODERATE (2)` with
`hot_thresholds[2] = 55`, `hot_hysteresis[2] = 3 > 0` and previous hot
severity 2, the value `v = 52` satisfies the claim's premise
`threshold - hysteresis ≤ v < threshold` (`52 ≤ 52 < 55`), yet the
classifier returns hot severity 1, not 2: the code's hysteresis
comparison `(55 - 3) < 52` is strict, so the level drops exactly at the
band's lower edge. -/
theorem c3_counterexample :
    c3xHot 2 = some 55 ∧ c3xHys 2 = some 3 ∧ (0 : ℚ) < 3 ∧
    (55 - 3 : ℚ) ≤ 52 ∧ (52 : ℚ) < 55 ∧
    (getSeverityFromThresholds c3xHot c3xNone c3xHys c3xNone 2 0 52).1 = 1 ∧
    (getSeverityFromThresholds c3xHot c3xNone c3xHys c3xNone 2 0 52).1 ≠ 2 := by
  refine ⟨?_, ?_, ?_, ?_, ?_, ?_, ?_⟩ <;>
    norm_num +decide [getSeverityFromThresholds, firstSevMatch, sevDescend, List.find?,
      hotRawCond, hotHystCond, coldRawCond, coldHystCond, c3xHot, c3xHys, c3xNone]

/- Hot arrays for the C3 witness: threshold 55 and hysteresis 3 at
MODERATE only. -/
def c3wHot : ThrottlingArray := fun j => if j = 2 then some 55 else none

/- Hot hysteresis for the C3 witness. -/
def c3wHys : ThrottlingArray := fun j => if j = 2 then some 3 else none

/- Cold arrays for the C3 witness: cold threshold 10 and hysteresis 3 at
LIGHT only. -/
def c3wCold : ThrottlingArray := fun j => if j = 1 then some 10 else none

/- Cold hysteresis for the C3 witness. -/
def c3wColdHys : ThrottlingArray := fun j => if j = 1 then some 3 else none

/-- Witness for the amended claim C3: inside the open hot band
(`52 < 53 < 55`, previous hot severity MODERATE) the classifier keeps
hot severity 2; inside the open cold band (`10 < 11 < 13`, previous cold
severity LIGHT) it keeps cold severity 1. -/
theorem c3_amended_witness :
    (getSeverityFromThresholds c3wHot c3wCold c3wHys c3wColdHys 2 1 53).1 = 2 ∧
    (getSeverityFromThresholds c3wHot c3wCold c3wHys c3wColdHys 2 1 11).2 = 1 :=
  ⟨(c3_amended c3wHot c3wCold c3wHys c3wColdHys 2 1 53 2 1).1
      (by decide) rfl 55 3 rfl rfl (by norm_num) (by norm_num) (by norm_num)
      (fun j hj => by
        fin_cases j <;>
          first
            | exact absurd hj (by decide)
            | exact ⟨rfl, rfl⟩),
    (c3_amended c3wHot c3wCold c3wHys c3wColdHys 2 1 11 2 1).2
      (by decide) rfl 10 3 rfl rfl (by norm_num) (by norm_num) (by norm_num)
      (fun j hj => by
        fin_cases j <;>
          first
            | exact absurd hj (by decide)
            | exact ⟨rfl, rfl⟩)⟩

/- One `pidPowerCalculator` step preserves the scaled-integral bound
`|err_integral * k_i[t]| < i_max[t]` for a fixed target `t`, provided
the sample's computed target is `t` and `i_max[t] > 0`: the early exit
resets the integral to 0; an accepted integral update is guarded by
exactly this bound; a rejected one leaves the integral unchanged. -/
theorem pid_step_integral_bound (info : SensorInfo) (t : Fin 7)
    (hmax : 0 < info.throttling_info.i_max t)
    (st : PidState) (sev : Fin 7) (v dt : ℚ)
    (htgt : pidTargetState info sev = t)
    (hst : |st.err_integral * info.throttling_info.k_i t| < info.throttling_info.i_max t) :
    |(pidPowerCalculator info sev v st dt).1.err_integral * info.throttling_info.k_i t|
      < info.throttling_info.i_max t := by
  simp only [pidPowerCalculator, htgt]
  by_cases hcond : t = 0 ∨ sev = 0
  · rw [if_pos hcond]
    simpa using hmax
  · rw [if_neg hcond]
    by_cases h1 : info.hot_thresholds t - v < info.throttling_info.i_cutoff t
    · by_cases h2 : |st.err_integral * info.throttling_info.k_i t +
          (info.hot_thresholds t - v) * info.throttling_info.k_i t| <
          info.throttling_info.i_max t
      · rw [if_pos h1, if_pos h2]
        simpa [add_mul] using h2
      · rw [if_pos h1, if_neg h2]
        exact hst
    · rw [if_neg h1]
      exact hst

/- The scaled-integral bound is preserved along any sample sequence all
of whose samples compute the same target `t`. -/
theorem runPidSamples_integral_bound (info : SensorInfo) (t : Fin 7)
    (hmax : 0 < info.throttling_info.i_max t) :
    ∀ samples : List PidSample, (∀ s ∈ samples, pidTargetState info s.sev = t) →
    ∀ st : PidState,
      |st.err_integral * info.throttling_info.k_i t| < info.throttling_info.i_max t →
      |(runPidSamples info samples st).err_integral * info.throttling_info.k_i t|
        < info.throttling_info.i_max t := by
  intro samples
  induction samples with
  | nil =>
    intro _ st h
    simpa [runPidSamples] using h
  | cons s rest ih =>
    intro ht st h
    simp only [runPidSamples]
    exact ih (fun x hx => ht x (List.mem_cons_of_mem _ hx)) _
      (pid_step_integral_bound info t hmax st s.sev s.value s.dt
        (ht s (List.mem_cons_self _ _)) h)

/-- Claim C4, amended: for a fixed PID target state `t` with
`i_max[t] > 0`, along any sequence of `pidPowerCalculator` samples that
all compute target `t`, starting from `err_integral = 0`, after every
sample `|err_integral * k_i[t]| < i_max[t]` (every prefix of such a
sequence again satisfies the premises, so the bound indeed holds after
every sample).  The original claim, which lets the target vary from
sample to sample, is refuted by `c4_counterexample`. -/
theorem c4_amended (info : SensorInfo) (t : Fin 7)
    (hmax : 0 < info.throttling_info.i_max t)
    (samples : List PidSample)
    (ht : ∀ s ∈ samples, pidTargetState info s.sev = t) :
    |(runPidSamples info samples ⟨0, none⟩).err_integral * info.throttling_info.k_i t|
      < info.throttling_info.i_max t :=
  runPidSamples_integral_bound info t hmax samples ht ⟨0, none⟩ (by simpa using hmax)

/- Configuration for the C4 witness: PID at MODERATE only, `k_i = 1`,
`i_cutoff = 100`, `i_max = 100`. -/
def c4wInfo : SensorInfo :=
  { hot_thresholds := fun i => if i = 2 then 55 else 0
    throttling_info :=
    { throttle_type := fun i => if i = 2 then ThrottleType.PID else ThrottleType.NONE
      k_po := fun _ => 0
      k_pu := fun _ => 0
      k_i := fun _ => 1
      k_d := fun _ => 0
      i_cutoff := fun _ => 100
      i_max := fun _ => 100
      s_power := fun _ => 0
      min_alloc_power := fun _ => 0
      max_alloc_power := fun _ => 1000000
      cdev_request := []
      cdev_weight := [] } }

/-- Witness for the amended claim C4: two samples at readings 50 and 60,
both computing target MODERATE, keep `|err_integral * k_i| < i_max`. -/
theorem c4_amended_witness :
    (0 : ℚ) < c4wInfo.throttling_info.i_max 2 ∧
    (∀ s ∈ [(⟨1, 50, 100⟩ : PidSample), ⟨2, 60, 100⟩],
      pidTargetState c4wInfo s.sev = 2) ∧
    |(runPidSamples c4wInfo [⟨1, 50, 100⟩, ⟨2, 60, 100⟩] ⟨0, none⟩).err_integral *
        c4wInfo.throttling_info.k_i 2| < c4wInfo.throttling_info.i_max 2 :=
  ⟨by norm_num [c4wInfo],
   by intro s hs; fin_cases hs <;> decide,
   c4_amended c4wInfo 2 (by norm_num [c4wInfo]) _
     (by intro s hs; fin_cases hs <;> decide)⟩

/- Configuration for the C4 counterexample: PID at LIGHT, MODERATE and
SEVERE; `k_i = 1`, `i_cutoff = 100`, `i_max = 100` at MODERATE but
`k_i = 10`, `i_cutoff = -1000`, `i_max = 100` at SEVERE;
`hot_thresholds = [_, 0, 55, 65, ...]`. -/
def c4xInfo : SensorInfo :=
  { hot_thresholds := fun i => if i = 2 then 55 else if i = 3 then 65 else 0
    throttling_info :=
    { throttle_type := fun i =>
        if i = 1 ∨ i = 2 ∨ i = 3 then ThrottleType.PID else ThrottleType.NONE
      k_po := fun _ => 0
      k_pu := fun _ => 0
      k_i := fun i => if i = 3 then 10 else 1
      k_d := fun _ => 0
      i_cutoff := fun i => if i = 3 then -1000 else 100
      i_max := fun _ => 100
      s_power := fun _ => 0
      min_alloc_power := fun _ => 0
      max_alloc_power := fun _ => 1000000
      cdev_request := []
      cdev_weight := [] } }

/-- Claim C4, counterexample: starting from `err_integral = 0`, the
sample at severity LIGHT / reading 5 uses target MODERATE (`k_i = 1`,
`i_max = 100`) and accumulates `err_integral = 50` (bound holds:
`50 < 100`); the next sample at severity MODERATE / reading 65 uses
target SEVERE (`k_i = 10`, `i_cutoff = -1000`), where `err = 0` is not
below the cutoff, so the integral is not updated — and the claimed
invariant fails at that sample's target: `|50 * 10| = 500 ≥ 100`. -/
theorem c4_counterexample :
    pidTargetState c4xInfo 1 = 2 ∧
    pidTargetState c4xInfo 2 = 3 ∧
    (runPidSamples c4xInfo [⟨1, 5, 100⟩] ⟨0, none⟩).err_integral = 50 ∧
    ¬ (|(runPidSamples c4xInfo [⟨1, 5, 100⟩, ⟨2, 65, 100⟩] ⟨0, none⟩).err_integral *
          c4xInfo.throttling_info.k_i (pidTargetState c4xInfo 2)| <
        c4xInfo.throttling_info.i_max (pidTargetState c4xInfo 2)) := by
  refine ⟨?_, ?_, ?_, ?_⟩ <;>
    norm_num +decide [runPidSamples, pidPowerCalculator, pidTargetState, pidTargetLoop,
      sevList, c4xInfo]

/- The accumulation step `if v > m then v else m` is a `max`, both for
`updateCoolingDevices` over ℤ and for the MAXIMUM virtual-sensor formula
over ℚ. -/
theorem ite_gt_eq_max {α : Type} [LinearOrder α] (m v : α) :
    (if v > m then v else m) = max m v := by
  rcases le_or_lt v m with h | h
  · rw [if_neg (not_lt.mpr h), max_eq_left h]
  · rw [if_pos h, max_eq_right h.le]

/- `writtenState`'s fold is a fold of `max`. -/
theorem foldl_ite_eq_foldl_max (l : List ℤ) :
    ∀ a : ℤ, l.foldl (fun m v => if v > m then v else m) a =
      l.foldl (fun m v => max m v) a := by
  intro a
  simp only [ite_gt_eq_max]

/- Starting from a non-negative accumulator, folding `max` is the same
as folding `max` with each value floored at 0. -/
theorem foldl_max_floor (l : List ℤ) :
    ∀ a : ℤ, 0 ≤ a →
      l.foldl (fun m v => max m v) a = l.foldl (fun m v => max m (max v 0)) a := by
  induction l with
  | nil => intro a _; rfl
  | cons x xs ih =>
    intro a ha
    simp only [List.foldl_cons]
    have h1 : max a x = max a (max x 0) := by
      rcases le_or_lt 0 x with h | h
      · rw [max_eq_left h]
      · rw [max_eq_right h.le, max_eq_left ha, max_eq_left (h.le.trans ha)]
    rw [h1]
    exact ih _ (le_trans ha (le_max_left a (max x 0)))

/-- Claim C5: whenever `updateCoolingDevices` writes a state for a
cooling device, the integer written equals the maximum over all sensors
of the per-sensor request — `max` of the sensor's `pid_request_map` and
`hard_limit_request_map` entries for that device (each defaulting to 0
when the map is empty) — floored at 0.  The hypothesis is the system
invariant that a sensor not re-evaluated this iteration still has its
previous request recorded in `cdev_status_map_` (its maps are unchanged
since it was last processed, and both start at zero). -/
theorem c5_write_is_max (sensors : List SensorAgg)
    (hinv : ∀ s ∈ sensors, (s.processed && activeAgg s) = false → s.stored = requestState s)
    (w : ℤ) (hw : iterationWrite sensors = some w) :
    w = sensors.foldl (fun m s => max m (max (requestState s) 0)) 0 := by
  have hmap : sensors.map storedAfter = sensors.map requestState := by
    apply List.map_congr_left
    intro s hs
    unfold storedAfter
    by_cases h : (s.processed && activeAgg s) = true
    · rw [if_pos h]
    · rw [if_neg h]
      exact hinv s hs (by simpa using h)
  have hval : writtenState (sensors.map storedAfter) =
      sensors.foldl (fun m s => max m (max (requestState s) 0)) 0 := by
    rw [hmap, writtenState, foldl_ite_eq_foldl_max, foldl_max_floor _ _ le_rfl,
      List.foldl_map]
  unfold iterationWrite at hw
  by_cases hupd : deviceNeedsUpdate sensors = true
  · rw [if_pos hupd] at hw
    rw [← Option.some.inj hw, hval]
  · rw [if_neg hupd] at hw
    exact absurd hw (by simp)

/- Sensor records for the C5 witness: a processed sensor raising its PID
request to 3, and an unprocessed sensor whose stored entry 2 equals its
recorded request `max(1, 2)`. -/
def c5wSensors : List SensorAgg :=
  [{ pid_nonempty := true, pid_entry := 3, limit_nonempty := false, limit_entry := 0,
     stored := 1, processed := true },
   { pid_nonempty := true, pid_entry := 1, limit_nonempty := true, limit_entry := 2,
     stored := 2, processed := false }]

/-- Witness for claim C5: the write that occurs carries state 3, the max
over both sensors' requests. -/
theorem c5_write_is_max_witness :
    (∀ s ∈ c5wSensors, (s.processed && activeAgg s) = false →
      s.stored = requestState s) ∧
    iterationWrite c5wSensors = some 3 ∧
    3 = c5wSensors.foldl (fun m s => max m (max (requestState s) 0)) 0 :=
  ⟨by decide, by decide, c5_write_is_max c5wSensors (by decide) 3 (by decide)⟩

/- Sensor records for the C6 counterexample: sensor A (processed) drops
its request from 1 to 0 while sensor B holds 3, so the aggregated
maximum is unchanged at 3. -/
def c6xSensors : List SensorAgg :=
  [{ pid_nonempty := true, pid_entry := 0, limit_nonempty := false, limit_entry := 0,
     stored := 1, processed := true },
   { pid_nonempty := true, pid_entry := 3, limit_nonempty := false, limit_entry := 0,
     stored := 3, processed := false }]

/-- Claim C6, counterexample: the aggregated state (the `max_state`
`updateCoolingDevices` computes) is 3 both before and after the
iteration — unchanged — yet the device is collected into
`cooling_devices_to_update` because the processed sensor's own entry
changed from 1 to 0, and a sysfs write (of the unchanged value 3) does
occur. -/
theorem c6_counterexample :
    writtenState (c6xSensors.map SensorAgg.stored) =
      writtenState (c6xSensors.map storedAfter) ∧
    iterationWrite c6xSensors = some 3 := by decide

/-- Claim C6, amended: no sysfs write to a cooling device occurs in an
iteration in which no evaluated sensor's per-sensor request for the
device differs from its stored `cdev_status_map_` entry (the code keys
the write on a per-sensor entry change, not on a change of the
aggregated maximum). -/
theorem c6_amended (sensors : List SensorAgg)
    (h : ∀ s ∈ sensors, s.processed = true → activeAgg s = true →
      s.stored = requestState s) :
    iterationWrite sensors = none := by
  have hupd : deviceNeedsUpdate sensors = false := by
    unfold deviceNeedsUpdate
    rw [List.any_eq_false]
    intro s hs
    simp only [Bool.and_eq_true, decide_eq_true_eq]
    rintro ⟨⟨hp, ha⟩, hne⟩
    exact hne (h s hs hp ha)
  simp [iterationWrite, hupd]

/- Sensor records for the C6 witness: the processed sensor's request
equals its stored entry; the other sensor is not re-evaluated. -/
def c6wSensors : List SensorAgg :=
  [{ pid_nonempty := true, pid_entry := 2, limit_nonempty := true, limit_entry := 1,
     stored := 2, processed := true },
   { pid_nonempty := false, pid_entry := 0, limit_nonempty := true, limit_entry := 1,
     stored := 1, processed := false }]

/-- Witness for the amended claim C6: no write occurs. -/
theorem c6_amended_witness :
    (∀ s ∈ c6wSensors, s.processed = true → activeAgg s = true →
      s.stored = requestState s) ∧
    iterationWrite c6wSensors = none :=
  ⟨by decide, c6_amended c6wSensors (by decide)⟩

/-- Claim C7: when a sensor's `cdev_weight` entries sum to zero,
`requestCdevByPower` returns `false` and leaves the sensor's
`pid_request_map` exactly as it was, for any power budget. -/
theorem c7_zero_weight (p2s : String → List ℚ) (ti : ThrottlingInfo)
    (m : String → ℤ) (budget : ℚ)
    (h : ((ti.cdev_request.zip ti.cdev_weight).map Prod.snd).sum = 0) :
    requestCdevByPower p2s ti m budget = (false, m) := by
  simp [requestCdevByPower, h]

/- Throttling info for the C7 witness: two cooling devices with weights
2 and -2, which sum to zero. -/
def c7wTi : ThrottlingInfo :=
  { throttle_type := fun _ => ThrottleType.NONE
    k_po := fun _ => 0
    k_pu := fun _ => 0
    k_i := fun _ => 0
    k_d := fun _ => 0
    i_cutoff := fun _ => 0
    i_max := fun _ => 0
    s_power := fun _ => 0
    min_alloc_power := fun _ => 0
    max_alloc_power := fun _ => 0
    cdev_request := ["fan", "gpu"]
    cdev_weight := [2, -2] }

/- A pre-existing `pid_request_map` for the C7 witness. -/
def c7wMap : String → ℤ := fun _ => 5

/-- Witness for claim C7: the weights sum to zero, the call fails and
the map comes back untouched. -/
theorem c7_zero_weight_witness :
    ((c7wTi.cdev_request.zip c7wTi.cdev_weight).map Prod.snd).sum = 0 ∧
    requestCdevByPower (fun _ => [1500, 0]) c7wTi c7wMap 500 = (false, c7wMap) :=
  ⟨by norm_num [c7wTi], c7_zero_weight _ c7wTi c7wMap 500 (by norm_num [c7wTi])⟩

/- `fillCurrentTemperatures` equals its error-on-first-failure
characterization. -/
theorem fillSpec_eq (filterType : Bool) (t : ℕ) :
    ∀ ss : List SensorSnap,
      fillCurrentTemperatures filterType t ss = fillCurrentTemperaturesSpec filterType t ss := by
  intro ss
  induction ss with
  | nil => rfl
  | cons s rest ih =>
    by_cases hf : (filterType && decide (s.ty ≠ t)) = true
    · have hfilter : (s :: rest).filter (fun x => !(filterType && decide (x.ty ≠ t))) =
          rest.filter (fun x => !(filterType && decide (x.ty ≠ t))) :=
        List.filter_cons_of_neg (by rw [hf]; simp)
      have hLHS : fillCurrentTemperatures filterType t (s :: rest) =
          fillCurrentTemperaturesSpec filterType t rest := by
        simp only [fillCurrentTemperatures, if_pos hf, ih]
      rw [hLHS]
      unfold fillCurrentTemperaturesSpec
      rw [hfilter]
    · have hfilter : (s :: rest).filter (fun x => !(filterType && decide (x.ty ≠ t))) =
          s :: rest.filter (fun x => !(filterType && decide (x.ty ≠ t))) :=
        List.filter_cons_of_pos (by rw [Bool.eq_false_iff.mpr hf]; rfl)
      cases hr : s.reading with
      | none =>
        have hLHS : fillCurrentTemperatures filterType t (s :: rest) = none := by
          simp only [fillCurrentTemperatures, if_neg hf, hr]
        rw [hLHS]
        unfold fillCurrentTemperaturesSpec
        rw [hfilter, List.any_cons, hr]
        simp
      | some v =>
        have hLHS : fillCurrentTemperatures filterType t (s :: rest) =
            (fillCurrentTemperaturesSpec filterType t rest).map (fun l => v :: l) := by
          simp only [fillCurrentTemperatures, if_neg hf, hr, ih]
        rw [hLHS]
        unfold fillCurrentTemperaturesSpec
        rw [hfilter, List.any_cons, hr]
        simp only [Option.isNone_some, Bool.false_or]
        by_cases hb : ((rest.filter fun x => !(filterType && decide (x.ty ≠ t))).any
            fun x => x.reading.isNone) = true
        · rw [if_pos hb, if_pos hb]
          rfl
        · rw [if_neg hb, if_neg hb]
          simp [List.filterMap_cons, hr]

/- Sensor list for the C8 counterexample: the first sensor reads 30
successfully, the second read fails. -/
def c8xSensors : List SensorSnap := [⟨0, some 30⟩, ⟨0, none⟩]

/-- Claim C8, counterexample: at least one configured sensor is readable
(the first, at 30), yet `fillCurrentTemperatures` reports an error
(`false`) without producing any partial answer — it returns on the first
failing read, before assigning the output vector. -/
theorem c8_counterexample :
    (c8xSensors.any fun s => s.reading.isSome) = true ∧
    fillCurrentTemperatures false 0 c8xSensors = none ∧
    fillCurrentTemperaturesRet false 0 c8xSensors = false := by
  refine ⟨rfl, rfl, rfl⟩

/-- Claim C8, amended: `fillCurrentTemperatures` reports an error
exactly when some filter-matching sensor's read fails — in that case no
output is assigned at all (no partial answer) — and otherwise assigns
every matching sensor's reading, returning success iff at least one
sensor matched.  This is the behaviour `fillCurrentTemperaturesSpec`
states, proved equal to the code's loop. -/
theorem c8_amended (filterType : Bool) (t : ℕ) (ss : List SensorSnap) :
    fillCurrentTemperatures filterType t ss = fillCurrentTemperaturesSpec filterType t ss ∧
    (fillCurrentTemperatures filterType t ss = none ↔
      ∃ s ∈ ss.filter (fun x => !(filterType && decide (x.ty ≠ t))),
        s.reading = none) := by
  refine ⟨fillSpec_eq filterType t ss, ?_⟩
  rw [fillSpec_eq filterType t ss]
  unfold fillCurrentTemperaturesSpec
  by_cases h : ((ss.filter fun x => !(filterType && decide (x.ty ≠ t))).any
      fun x => x.reading.isNone) = true
  · rw [if_pos h]
    simp only [List.any_eq_true, Option.isNone_iff_eq_none] at h
    simpa using h
  · rw [if_neg h]
    simp only [List.any_eq_true, Option.isNone_iff_eq_none] at h
    constructor
    · intro hc
      exact absurd hc (by simp)
    · intro hex
      exact absurd hex h

/- Once the loop index is nonzero, the MAXIMUM accumulation of
`checkVirtualSensor` is a fold of `max` over the remaining contributing
products (no re-seeding with `lowest()` can happen any more). -/
theorem vsLoop_maximum (readF : String → Option ℚ) :
    ∀ (entries : List LinkedEntry) (i : ℕ), i ≠ 0 → ∀ m : ℚ,
      vsLoop FormulaOption.MAXIMUM readF entries i m =
        (contribProducts readF entries).foldl max m := by
  intro entries
  induction entries with
  | nil => intro i _ m; rfl
  | cons e rest ih =>
    intro i hi m
    by_cases hs : entrySkipped readF e = true
    · simp only [vsLoop, contribProducts, if_pos hs]
      exact ih (i + 1) (Nat.succ_ne_zero i) m
    · simp only [vsLoop, contribProducts, if_neg hs, if_neg hi, ite_gt_eq_max,
        List.foldl_cons]
      exact ih (i + 1) (Nat.succ_ne_zero i) _

/- A fold of `max` returns its seed or a list element. -/
theorem foldl_max_mem (l : List ℚ) : ∀ a : ℚ, l.foldl max a = a ∨ l.foldl max a ∈ l := by
  induction l with
  | nil => intro a; exact Or.inl rfl
  | cons x xs ih =>
    intro a
    rw [List.foldl_cons]
    rcases ih (max a x) with h | h
    · rcases max_choice a x with he | he
      · exact Or.inl (by rw [h, he])
      · exact Or.inr (by rw [h, he]; exact List.mem_cons_self _ _)
    · exact Or.inr (List.mem_cons_of_mem _ h)

/- The seed is below a fold of `max`. -/
theorem le_foldl_max (l : List ℚ) : ∀ a : ℚ, a ≤ l.foldl max a := by
  induction l with
  | nil => intro a; exact le_refl a
  | cons x xs ih =>
    intro a
    rw [List.foldl_cons]
    exact le_trans (le_max_left a x) (ih (max a x))

/- Every list element is below a fold of `max`. -/
theorem mem_le_foldl_max (l : List ℚ) : ∀ a : ℚ, ∀ x ∈ l, x ≤ l.foldl max a := by
  induction l with
  | nil => intro a x hx; cases hx
  | cons y ys ih =>
    intro a x hx
    rw [List.foldl_cons]
    rcases List.mem_cons.mp hx with rfl | h
    · exact le_trans (le_max_right a x) (le_foldl_max ys (max a x))
    · exact ih (max a y) x h

/-- Claim C9, amended: when the FIRST linked entry contributes (is not
skipped as "NAN" / empty / unreadable / NaN-coefficient), the MAXIMUM
formula of `checkVirtualSensor` returns the true maximum of the
contributing products `reading_i * coefficient_i` (given that every
product is at least `lowest()`, as every finite float is): the
accumulator is re-seeded with `lowest()` only when the switch is reached
at loop index 0, so the claim's "even when early linked_sensors entries
are skipped" is refuted by `c9_counterexample`. -/
theorem c9_amended (readF : String → Option ℚ) (e0 : LinkedEntry) (rest : List LinkedEntry)
    (h0 : entrySkipped readF e0 = false)
    (hb : ∀ p ∈ contribProducts readF (e0 :: rest), fltLowest ≤ p) :
    checkVirtualSensor FormulaOption.MAXIMUM readF (e0 :: rest) ∈
      contribProducts readF (e0 :: rest) ∧
    ∀ p ∈ contribProducts readF (e0 :: rest),
      p ≤ checkVirtualSensor FormulaOption.MAXIMUM readF (e0 :: rest) := by
  have hprod : contribProducts readF (e0 :: rest) =
      ((readF e0.name).getD 0 * e0.coefficient.getD 0) :: contribProducts readF rest := by
    simp [contribProducts, h0]
  have h0' : ¬ (entrySkipped readF e0 = true) := by
    rw [h0]
    simp
  have hval : checkVirtualSensor FormulaOption.MAXIMUM readF (e0 :: rest) =
      (contribProducts readF rest).foldl max
        (max fltLowest ((readF e0.name).getD 0 * e0.coefficient.getD 0)) := by
    simp only [checkVirtualSensor, vsLoop, if_neg h0', ite_gt_eq_max]
    norm_num [vsLoop_maximum readF rest 1 one_ne_zero]
  have hp0 : fltLowest ≤ (readF e0.name).getD 0 * e0.coefficient.getD 0 := by
    refine hb _ ?_
    rw [hprod]
    exact List.mem_cons_self _ _
  rw [hval, hprod, max_eq_right hp0]
  constructor
  · rcases foldl_max_mem (contribProducts readF rest)
        ((readF e0.name).getD 0 * e0.coefficient.getD 0) with h | h
    · rw [h]
      exact List.mem_cons_self _ _
    · exact List.mem_cons_of_mem _ h
  · intro p hp
    rcases List.mem_cons.mp hp with rfl | h
    · exact le_foldl_max _ _
    · exact mem_le_foldl_max _ _ _ h

/- Physical readings for the C9 witness: `s1 = 40`, `s2 = 90`. -/
def c9wRead : String → Option ℚ :=
  fun n => if n = "s1" then some 40 else if n = "s2" then some 90 else none

/- First linked entry for the C9 witness. -/
def c9wEntry0 : LinkedEntry := ⟨"s1", some 1⟩

/- Remaining linked entries for the C9 witness. -/
def c9wRest : List LinkedEntry := [⟨"s2", some (1 / 2)⟩]

/-- Witness for the amended claim C9 (the spec's own scenario 5): with
`linked_sensors = [s1, s2]`, `coefficients = [1, 0.5]` and readings
`s1 = 40`, `s2 = 90`, the MAXIMUM virtual sensor returns the maximum of
the contributing products `[40, 45]`. -/
theorem c9_amended_witness :
    entrySkipped c9wRead c9wEntry0 = false ∧
    contribProducts c9wRead (c9wEntry0 :: c9wRest) = [40, 45] ∧
    checkVirtualSensor FormulaOption.MAXIMUM c9wRead (c9wEntry0 :: c9wRest) ∈
      contribProducts c9wRead (c9wEntry0 :: c9wRest) ∧
    ∀ p ∈ contribProducts c9wRead (c9wEntry0 :: c9wRest),
      p ≤ checkVirtualSensor FormulaOption.MAXIMUM c9wRead (c9wEntry0 :: c9wRest) := by
  have h1 : entrySkipped c9wRead c9wEntry0 = false := by
    norm_num +decide [entrySkipped, c9wRead, c9wEntry0]
  have hcp : contribProducts c9wRead (c9wEntry0 :: c9wRest) = [40, 45] := by
    norm_num +decide [contribProducts, entrySkipped, c9wRead, c9wEntry0, c9wRest]
  have h2 : ∀ p ∈ contribProducts c9wRead (c9wEntry0 :: c9wRest), fltLowest ≤ p := by
    rw [hcp]
    intro p hp
    fin_cases hp <;> norm_num [fltLowest, fltMax]
  exact ⟨h1, hcp, (c9_amended c9wRead c9wEntry0 c9wRest h1 h2).1,
    (c9_amended c9wRead c9wEntry0 c9wRest h1 h2).2⟩

/- Physical readings for the C9 counterexample: only `s2` is readable,
at -10. -/
def c9xRead : String → Option ℚ := fun n => if n = "s2" then some (-10) else none

/- Linked entries for the C9 counterexample: the first entry is the
literal "NAN" (skipped), the second contributes the product -10. -/
def c9xEntries : List LinkedEntry := [⟨"NAN", some 1⟩, ⟨"s2", some 1⟩]

/-- Claim C9, counterexample: with `linked_sensors = ["NAN", s2]` and
`s2 * 1 = -10` the only contributing product is -10, so the claimed
result (the true maximum, initialized at -∞) is -10 — but the code
re-seeds `mTemp` with `lowest()` only at loop index 0, which here is
skipped as "NAN", so `mTemp` keeps its initial value 0 and the function
returns 0, which is not a contributing product at all. -/
theorem c9_counterexample :
    contribProducts c9xRead c9xEntries = [-10] ∧
    checkVirtualSensor FormulaOption.MAXIMUM c9xRead c9xEntries = 0 ∧
    checkVirtualSensor FormulaOption.MAXIMUM c9xRead c9xEntries ∉
      contribProducts c9xRead c9xEntries := by
  have hcp : contribProducts c9xRead c9xEntries = [-10] := by
    norm_num +decide [contribProducts, entrySkipped, c9xRead, c9xEntries]
  have hv : checkVirtualSensor FormulaOption.MAXIMUM c9xRead c9xEntries = 0 := by
    norm_num +decide [checkVirtualSensor, vsLoop, entrySkipped, c9xRead, c9xEntries]
  refine ⟨hcp, hv, ?_⟩
  rw [hcp, hv]
  norm_num

/- A lookup in the constructor-built zero map is defined exactly for the
listed names. -/
theorem lookup_zero_map (c : String) (l : List String) :
    ((l.map fun n => (n, (0 : ℤ))).lookup c ≠ none) ↔ c ∈ l := by
  induction l with
  | nil => simp [List.lookup]
  | cons x xs ih =>
    by_cases hx : c = x
    · simp [List.lookup, hx]
    · have hbeq : (c == x) = false := beq_eq_false_iff_ne.mpr hx
      simp [List.lookup, hbeq, hx, ih]

/-- Claim C10: over the maps built by the `ThermalHelper` constructor
(`pid_request_map` keyed by the sensor's `cdev_request`,
`hard_limit_request_map` keyed by its `limit_info`, and
`cdev_status_map_` keyed by every cooling device referenced by any
sensor), the `.at()` lookups of the aggregation step succeed for every
monitored sensor with a non-empty map and every `cdev_status_map_` key
if and only if every such sensor references every cooling device
referenced by any sensor. -/
theorem c10_lookup_safety (cfgs : List SensorCfg) :
    aggLookupsOk cfgs ↔ fullCoverage cfgs := by
  unfold aggLookupsOk fullCoverage
  apply forall_congr'
  intro s
  apply imp_congr_right
  intro _
  apply imp_congr_right
  intro _
  apply and_congr
  · apply imp_congr
    · simp [pidMap]
    · apply forall_congr'
      intro c
      apply imp_congr_right
      intro _
      exact lookup_zero_map c s.cdev_request
  · apply imp_congr
    · simp [limitMap]
    · apply forall_congr'
      intro c
      apply imp_congr_right
      intro _
      exact lookup_zero_map c s.limit_names
